import Mathlib

/-!
Shallow embedding of `flask_slack/slack.py` (the `Slack` class): the command
registry, the dispatch/validate algorithm and the response envelope builder.

Python dicts are modelled as association lists `List (String × α)` with
dict-style get/set (set replaces the value of an existing key in place,
otherwise appends).  Python values that may be `None` or a string are
modelled as `Option String`; Python truthiness of such a value is
`pyTruthy` (`None` and `""` are falsy).  The in-place mutation performed by
`kwargs.update(data.to_dict())` inside `dispatch` is modelled by explicit
state passing: `dispatch` returns the new registry next to its result.
A raised `KeyError` (lookup of an unregistered key) is modelled as `none`.
-/

namespace FlaskSlack

/-- Dict-style get on an association list: value of the first matching key. -/
def assocGet {α : Type} (d : List (String × α)) (k : String) : Option α :=
  match d with
  | [] => none
  | p :: t => if p.1 == k then some p.2 else assocGet t k

/-- Dict-style set: replace the value of an existing key in place, else append. -/
def assocSet {α : Type} (d : List (String × α)) (k : String) (v : α) :
    List (String × α) :=
  match d with
  | [] => [(k, v)]
  | p :: t => if p.1 == k then (k, v) :: t else p :: assocSet t k v

/-- Python `base.update(ext)`: fold dict-style set over the entries of `ext`. -/
def dictUpdate {α : Type} (base ext : List (String × α)) : List (String × α) :=
  ext.foldl (fun acc p => assocSet acc p.1 p.2) base

/-- Pointwise description of a dict merge: the value a key has after merging
`ext` over `base` — the `ext` value if the key occurs there, else the `base`
value.  Used to state what `dictUpdate` computes. -/
def mergedLookup {α : Type} (base ext : List (String × α)) (k : String) :
    Option α :=
  match assocGet ext k with
  | some v => some v
  | none => assocGet base k

/-- Python truthiness of a `None`-or-string value: `None` and `""` are falsy. -/
def pyTruthy : Option String → Bool
  | none => false
  | some s => !(s == "")

/-- Python `a or b` on `None`-or-string values. -/
def pyOr (a b : Option String) : Option String :=
  if pyTruthy a then a else b

/-- Whitespace characters removed by Python `str.strip()` (ASCII range). -/
def isPySpace (c : Char) : Bool :=
  c == ' ' || c == '\t' || c == '\n' || c == '\r' || c == '\x0b' || c == '\x0c'

/-- Drop leading and trailing whitespace from a character list. -/
def trimChars (l : List Char) : List Char :=
  ((l.dropWhile isPySpace).reverse.dropWhile isPySpace).reverse

/-- Python `s.strip()`. -/
def pyStrip (s : String) : String :=
  String.mk (trimChars s.toList)

/-- Python `s.lstrip('/')`: drop every leading `/` character. -/
def pyLstripSlash (s : String) : String :=
  String.mk (s.toList.dropWhile (fun c => c == '/'))

/-- Python `str.format` of a `None`-or-string value (`None` prints as `None`). -/
def pyFormatOpt : Option String → String
  | none => "None"
  | some s => s

/-- The `SlackError` exception raised by `validate`; it carries only `msg`. -/
structure SlackError where
  msg : String
deriving DecidableEq

/-- The JSON response envelope built by `Slack.response` (before `jsonify`). -/
structure Envelope where
  response_type : String
  text : String
  attachments : List String
deriving DecidableEq

/-- One registration record: the tuple
`(func, token, methods, kwargs)` stored in `self._commands[command]`.
`R` is the return type of the registered handler. -/
structure Registration (R : Type) where
  func : List (String × String) → R
  token : Option String
  methods : List String
  kwargs : List (String × String)

/-- The inbound HTTP request as seen by `dispatch`: its method, the URL
query parameters (`request.args`) and the form body (`request.form`). -/
structure Request where
  method : String
  args : List (String × String)
  form : List (String × String)
deriving DecidableEq

/-- `Slack.response(text, response_type='ephemeral', attachments=None)`:
an absent `attachments` argument is passed as `none` and replaced by a
fresh empty list. -/
def response (text rtype : String) (attachments : Option (List String)) :
    Envelope :=
  ⟨rtype, text, match attachments with | none => [] | some a => a⟩

/-- The `Slack.command` decorator: `self._commands[command] = (func, token, methods, kwargs)`
(dict assignment, so a later registration for the same name overwrites). -/
def registerCommand {R : Type} (cmds : List (String × Registration R))
    (name : String) (token : Option String) (methods : List String)
    (kwargs : List (String × String)) (func : List (String × String) → R) :
    List (String × Registration R) :=
  assocSet cmds name ⟨func, token, methods, kwargs⟩

/-- Membership/lookup of the (possibly `None`) extracted command among the
registered string keys: `None` is never a key of `self._commands`. -/
def lookupCmd {R : Type} (cmds : List (String × Registration R))
    (command : Option String) : Option (Registration R) :=
  match command with
  | none => none
  | some c => assocGet cmds c

/-- `Slack.validate(command, token, method)`: returns `some` error instead of
raising, `none` instead of returning normally.  The three checks, in source
order: unknown command, disallowed method, invalid token. -/
def validate {R : Type} (cmds : List (String × Registration R))
    (command token : Option String) (method : String) : Option SlackError :=
  match lookupCmd cmds command with
  | none => some ⟨"Command " ++ pyFormatOpt command ++ " is not found"⟩
  | some reg =>
    if reg.methods.contains method = false then
      some ⟨method ++ " request is not allowed"⟩
    else if pyTruthy reg.token && (token != reg.token) then
      some ⟨"Your token " ++ pyFormatOpt token ++ " is invalid"⟩
    else
      none

/-- `data = request.args; if method == 'POST': data = request.form`. -/
def requestData (req : Request) : List (String × String) :=
  if req.method == "POST" then req.form else req.args

/-- `command = data.get('command') or data.get('trigger_word')`, followed by
`if isinstance(command, string_types): command = command.strip().lstrip('/')`
(the only non-string value reaching this point is `None`). -/
def extractCommand (data : List (String × String)) : Option String :=
  match pyOr (assocGet data "command") (assocGet data "trigger_word") with
  | none => none
  | some s => some (pyLstripSlash (pyStrip s))

/-- Result of one `dispatch` call: either the error envelope built from a
caught `SlackError`, or whatever the registered handler returned. -/
inductive DispatchOut (R : Type) where
  | resp (envelope : Envelope)
  | handled (r : R)
deriving DecidableEq

/-- `Slack.dispatch()`.  Returns the dispatch result together with the
registry as it stands afterwards, because `kwargs.update(data.to_dict())`
mutates the stored registration's kwargs dict in place.  The overall `none`
models an uncaught `KeyError` (unreachable after successful validation). -/
def dispatch {R : Type} (cmds : List (String × Registration R)) (req : Request) :
    Option (DispatchOut R × List (String × Registration R)) :=
  let data := requestData req
  let token := assocGet data "token"
  let command := extractCommand data
  match validate cmds command token req.method with
  | some e => some (DispatchOut.resp (response e.msg "ephemeral" none), cmds)
  | none =>
    match command with
    | none => none
    | some c =>
      match assocGet cmds c with
      | none => none
      | some reg =>
        let merged := dictUpdate reg.kwargs data
        some (DispatchOut.handled (reg.func merged),
              assocSet cmds c ⟨reg.func, reg.token, reg.methods, merged⟩)

/-- Observation helper: the named-argument mapping a run of `dispatch` passed
to the registered handler, when the run reached a handler at all (the
exhibits instantiate `R` with the argument mapping itself, via an identity
handler, to make that mapping observable). -/
def handledArgs
    (out : Option (DispatchOut (List (String × String)) ×
                   List (String × Registration (List (String × String))))) :
    Option (List (String × String)) :=
  match out with
  | some (DispatchOut.handled r, _) => some r
  | _ => none

/-- Observation helper: the kwargs currently stored in the registry for `c`. -/
def kwargsOf {R : Type} (cmds : List (String × Registration R)) (c : String) :
    Option (List (String × String)) :=
  (assocGet cmds c).map Registration.kwargs

/-- Identity handler used by the exhibits: returns its argument mapping. -/
def idHandler : List (String × String) → List (String × String) :=
  fun m => m

/-! ### Spec-side definitions

These two definitions follow the words of the specification (not the
source); they are compared against the source-derived `extractCommand`. -/

/-- Written from the spec sentence for command extraction: trim surrounding
whitespace, then strip AT MOST ONE leading `/` character. -/
def trimThenStripOneSlash (s : String) : String :=
  String.mk (match trimChars s.toList with
    | '/' :: rest => rest
    | l => l)

/-- Written from the amended extraction rule: trim surrounding whitespace,
then strip ALL leading `/` characters. -/
def trimThenStripAllSlashes (s : String) : String :=
  String.mk ((trimChars s.toList).dropWhile (fun c => c == '/'))

/-! ### Heap model for the attachments default

`response` defaults an absent `attachments` argument to a fresh empty
Python list.  Python lists are mutable objects compared by identity, so to
state freshness we model list identity explicitly: a heap of list cells and
envelopes holding a reference (cell index) instead of the list itself. -/

/-- A heap of attachment-list cells; a reference is an index into `cells`. -/
structure AttachHeap where
  cells : List (List String)
deriving DecidableEq

/-- Allocate a new list cell, returning its reference and the new heap. -/
def allocList (h : AttachHeap) (v : List String) : Nat × AttachHeap :=
  (h.cells.length, ⟨h.cells ++ [v]⟩)

/-- An envelope whose `attachments` field is a reference to a heap cell. -/
structure EnvelopeRef where
  response_type : String
  text : String
  attachments : Nat
deriving DecidableEq

/-- `Slack.response` under the heap model: an absent `attachments` argument
(`none`) triggers `attachments = []`, i.e. allocation of a fresh empty
list cell; a supplied reference is stored as-is. -/
def responseAlloc (h : AttachHeap) (text rtype : String)
    (attachments : Option Nat) : EnvelopeRef × AttachHeap :=
  match attachments with
  | some r => (⟨rtype, text, r⟩, h)
  | none =>
    let rh := allocList h []
    (⟨rtype, text, rh.1⟩, rh.2)

/-- Read the list held in cell `r`. -/
def heapGet (h : AttachHeap) (r : Nat) : Option (List String) :=
  h.cells.get? r

/-- In-place mutation of the list held in cell `r`. -/
def heapSet (h : AttachHeap) (r : Nat) (v : List String) : AttachHeap :=
  ⟨h.cells.set r v⟩

/-! ### Association-list lemmas -/

theorem assocGet_set_self {α : Type} (d : List (String × α)) (k : String) (v : α) :
    assocGet (assocSet d k v) k = some v := by
  induction d with
  | nil => simp [assocGet, assocSet]
  | cons p t ih =>
    by_cases h : p.1 = k
    · simp [assocGet, assocSet, h]
    · simp [assocGet, assocSet, h, ih]

theorem assocGet_set_ne {α : Type} (d : List (String × α)) (k k₂ : String) (v : α)
    (h : k₂ ≠ k) : assocGet (assocSet d k v) k₂ = assocGet d k₂ := by
  have h' : ¬k = k₂ := Ne.symm h
  induction d with
  | nil => simp [assocGet, assocSet, h']
  | cons p t ih =>
    by_cases hp : p.1 = k
    · simp [assocGet, assocSet, hp, h']
    · by_cases hp₂ : p.1 = k₂ <;> simp [assocGet, assocSet, hp, hp₂, h, ih]

theorem assocGet_eq_none {α : Type} (d : List (String × α)) (k : String)
    (h : k ∉ d.map Prod.fst) : assocGet d k = none := by
  induction d with
  | nil => rfl
  | cons p t ih =>
    simp only [List.map_cons, List.mem_cons] at h
    push_neg at h
    simp [assocGet, Ne.symm h.1, ih h.2]

/-- Value of a key after `dictUpdate`: the update's value when the key occurs
in the update (whose keys are assumed distinct, as for a Python dict),
otherwise the base value. -/
theorem assocGet_dictUpdate {α : Type} (d e : List (String × α)) (k : String)
    (h : (e.map Prod.fst).Nodup) :
    assocGet (dictUpdate d e) k = mergedLookup d e k := by
  simp only [mergedLookup]
  induction e generalizing d with
  | nil => rfl
  | cons p t ih =>
    simp only [List.map_cons, List.nodup_cons] at h
    have step : dictUpdate d (p :: t) = dictUpdate (assocSet d p.1 p.2) t := rfl
    rw [step, ih (assocSet d p.1 p.2) h.2]
    by_cases hk : p.1 = k
    · subst hk
      have ht : assocGet t p.1 = none := assocGet_eq_none t p.1 h.1
      rw [ht]
      simp [assocGet, assocGet_set_self]
    · cases hgt : assocGet t k with
      | some v => simp [assocGet, hk, hgt]
      | none =>
        simp [assocGet, hk, hgt,
              assocGet_set_ne d p.1 k p.2 (fun e₂ => hk e₂.symm)]

theorem toList_mk (l : List Char) : (String.mk l).toList = l := rfl

theorem get?_append_cons {α : Type} (l : List α) (a : α) (t : List α) :
    (l ++ a :: t).get? l.length = some a := by
  induction l with
  | nil => rfl
  | cons x xs ih => simpa using ih

/-! ### Claim C2 -/

/-- Counterexample to "at most one leading slash is stripped": on input
`"//deploy"` the code removes BOTH leading slashes (Python `lstrip('/')`
removes every leading occurrence), while trimming and stripping at most one
`/` would give `"/deploy"`. -/
theorem extract_not_at_most_one_slash :
    extractCommand [("command", "//deploy")] = some "deploy" ∧
    trimThenStripOneSlash "//deploy" = "/deploy" ∧
    ("deploy" : String) ≠ "/deploy" := by
  refine ⟨by decide, by decide, by decide⟩

/-- Claim C2 (amended): for every non-empty string in the `command` field —
and every string in the `trigger_word` field — the extracted command name is
the value with surrounding whitespace trimmed and then ALL leading `/`
characters stripped. -/
theorem extract_trims_and_strips_all_slashes (s : String) (h : s ≠ "") :
    extractCommand [("command", s)] = some (trimThenStripAllSlashes s) ∧
    ∀ t : String,
      extractCommand [("trigger_word", t)] = some (trimThenStripAllSlashes t) := by
  constructor
  · have hs : (s == "") = false := by simp [h]
    simp [extractCommand, assocGet, pyOr, pyTruthy, hs, pyLstripSlash, pyStrip,
          trimThenStripAllSlashes, toList_mk]
  · intro t
    rfl

/-- Witness for the amended claim at the spec's own example input. -/
theorem extract_trims_and_strips_all_slashes_witness :
    extractCommand [("command", "  /deploy  ")] = some "deploy" := by
  have h := extract_trims_and_strips_all_slashes "  /deploy  " (by decide)
  exact h.1.trans (by decide)

/-! ### Claim C3 -/

/-- Claim C3: `validate` checks, in this fixed order, unknown command, then
disallowed method, then invalid token; the first failing check alone
determines the error and its exact message, and when all three checks pass
`validate` returns normally (here: `none`). -/
theorem validate_check_order_and_messages {R : Type}
    (cmds : List (String × Registration R)) (command token : Option String)
    (method : String) :
    (lookupCmd cmds command = none →
      validate cmds command token method =
        some ⟨"Command " ++ pyFormatOpt command ++ " is not found"⟩) ∧
    (∀ reg, lookupCmd cmds command = some reg →
      reg.methods.contains method = false →
      validate cmds command token method =
        some ⟨method ++ " request is not allowed"⟩) ∧
    (∀ reg, lookupCmd cmds command = some reg →
      reg.methods.contains method = true →
      pyTruthy reg.token = true → token ≠ reg.token →
      validate cmds command token method =
        some ⟨"Your token " ++ pyFormatOpt token ++ " is invalid"⟩) ∧
    (∀ reg, lookupCmd cmds command = some reg →
      reg.methods.contains method = true →
      (pyTruthy reg.token = true → token = reg.token) →
      validate cmds command token method = none) := by
  refine ⟨?_, ?_, ?_, ?_⟩
  · intro h
    simp [validate, h]
  · intro reg hreg hm
    have hm' : method ∉ reg.methods := by simpa using hm
    simp [validate, hreg, hm, hm']
  · intro reg hreg hm htr htok
    have hm' : method ∈ reg.methods := by simpa using hm
    simp [validate, hreg, hm, hm', htr, bne_iff_ne, htok]
  · intro reg hreg hm htok
    have hm' : method ∈ reg.methods := by simpa using hm
    by_cases htr : pyTruthy reg.token = true
    · simp [validate, hreg, hm, hm', htr, htok htr]
    · rw [Bool.not_eq_true] at htr
      simp [validate, hreg, hm, hm', htr]

/-- Witness: an unknown command yields the not-found message, and a fully
valid triple passes with no error. -/
theorem validate_check_order_and_messages_witness :
    validate ([] : List (String × Registration Unit)) (some "x") none "GET" =
      some ⟨"Command x is not found"⟩ ∧
    validate [("c", (⟨fun _ => (), some "abc", ["GET"], []⟩ : Registration Unit))]
      (some "c") (some "abc") "GET" = none :=
  ⟨(validate_check_order_and_messages [] (some "x") none "GET").1 rfl,
   (validate_check_order_and_messages
      [("c", (⟨fun _ => (), some "abc", ["GET"], []⟩ : Registration Unit))]
      (some "c") (some "abc") "GET").2.2.2
      ⟨fun _ => (), some "abc", ["GET"], []⟩ rfl rfl (fun _ => rfl)⟩

/-! ### Claim C4 -/

/-- Claim C4: every `SlackError` produced by `validate` is caught inside
`dispatch` and converted into an envelope with `response_type` `"ephemeral"`,
the error message as text, and empty attachments; the registry is untouched
and no error escapes. -/
theorem dispatch_wraps_validation_errors {R : Type}
    (cmds : List (String × Registration R)) (req : Request) (e : SlackError)
    (h : validate cmds (extractCommand (requestData req))
           (assocGet (requestData req) "token") req.method = some e) :
    dispatch cmds req = some (DispatchOut.resp ⟨"ephemeral", e.msg, []⟩, cmds) := by
  simp [dispatch, h, response]

/-- Witness: an unregistered command name yields exactly the not-found
ephemeral envelope with empty attachments. -/
theorem dispatch_wraps_validation_errors_witness :
    dispatch ([] : List (String × Registration Unit))
        ⟨"GET", [("command", "x")], []⟩ =
      some (DispatchOut.resp ⟨"ephemeral", "Command x is not found", []⟩, []) :=
  dispatch_wraps_validation_errors [] ⟨"GET", [("command", "x")], []⟩
    ⟨"Command x is not found"⟩ rfl

/-! ### Claim C6 -/

/-- Claim C6: a registered command whose secret token is unset (`None`) or the
empty string accepts every supplied token, including an absent one
(falsy-check semantics of `if _token and token != _token`). -/
theorem validate_empty_secret_passes {R : Type}
    (cmds : List (String × Registration R)) (c : String) (reg : Registration R)
    (token : Option String) (method : String)
    (hreg : assocGet cmds c = some reg)
    (hsec : reg.token = none ∨ reg.token = some "")
    (hm : reg.methods.contains method = true) :
    validate cmds (some c) token method = none := by
  have htr : pyTruthy reg.token = false := by
    rcases hsec with h | h <;> simp [pyTruthy, h]
  have hm' : method ∈ reg.methods := by simpa using hm
  simp [validate, lookupCmd, hreg, hm, hm', htr]

/-- Witness: an unset secret passes with an absent token, and an empty-string
secret passes with an arbitrary token. -/
theorem validate_empty_secret_passes_witness :
    validate [("c", (⟨fun _ => (), none, ["GET"], []⟩ : Registration Unit))]
      (some "c") none "GET" = none ∧
    validate [("c", (⟨fun _ => (), some "", ["GET"], []⟩ : Registration Unit))]
      (some "c") (some "whatever") "GET" = none :=
  ⟨validate_empty_secret_passes
      [("c", (⟨fun _ => (), none, ["GET"], []⟩ : Registration Unit))] "c"
      ⟨fun _ => (), none, ["GET"], []⟩ none "GET" rfl (Or.inl rfl) rfl,
   validate_empty_secret_passes
      [("c", (⟨fun _ => (), some "", ["GET"], []⟩ : Registration Unit))] "c"
      ⟨fun _ => (), some "", ["GET"], []⟩ (some "whatever") "GET" rfl
      (Or.inr rfl) rfl⟩

/-! ### Claim C7 -/

/-- Claim C7: `dispatch` reads its parameters from the URL query for `GET`,
from the form body for `POST`, and again from the URL query for every other
method. -/
theorem requestData_source_selection (args form : List (String × String)) :
    requestData ⟨"GET", args, form⟩ = args ∧
    requestData ⟨"POST", args, form⟩ = form ∧
    ∀ m : String, m ≠ "GET" → m ≠ "POST" → requestData ⟨m, args, form⟩ = args := by
  refine ⟨rfl, rfl, fun m hg hp => ?_⟩
  simp [requestData, hp]

/-- Witness: a `PUT` request falls back to the query parameters. -/
theorem requestData_source_selection_witness :
    requestData ⟨"PUT", [("a", "1")], [("b", "2")]⟩ = [("a", "1")] :=
  (requestData_source_selection [("a", "1")] [("b", "2")]).2.2 "PUT"
    (by decide) (by decide)

/-! ### Claim C5 -/

/-- Claim C5: a request for a registered command, with an allowed method and
the registered token, makes `dispatch` invoke that command's handler with the
merge of the registered kwargs and the request's parameter source — the
request's value winning on key collision — and return the handler's result
unmodified. -/
theorem dispatch_success_invokes_handler {R : Type}
    (cmds : List (String × Registration R)) (req : Request) (c : String)
    (reg : Registration R)
    (hcmd : extractCommand (requestData req) = some c)
    (hreg : assocGet cmds c = some reg)
    (hm : reg.methods.contains req.method = true)
    (ht : assocGet (requestData req) "token" = reg.token)
    (hnd : ((requestData req).map Prod.fst).Nodup) :
    dispatch cmds req =
      some (DispatchOut.handled
              (reg.func (dictUpdate reg.kwargs (requestData req))),
            assocSet cmds c
              ⟨reg.func, reg.token, reg.methods,
               dictUpdate reg.kwargs (requestData req)⟩) ∧
    ∀ k, assocGet (dictUpdate reg.kwargs (requestData req)) k =
      mergedLookup reg.kwargs (requestData req) k := by
  have hm' : req.method ∈ reg.methods := by simpa using hm
  have hval : validate cmds (some c) (assocGet (requestData req) "token")
      req.method = none := by
    simp [validate, lookupCmd, hreg, hm, hm', ht]
  refine ⟨?_, fun k => assocGet_dictUpdate reg.kwargs (requestData req) k hnd⟩
  simp [dispatch, hcmd, hval, hreg]

/-- Witness: a registered `deploy` command with secret `abc`, extra kwarg
`env=prod`, invoked by a matching `GET` request; the handler (the identity on
its argument mapping) receives the registered kwarg merged with all request
parameters. -/
theorem dispatch_success_invokes_handler_witness :
    handledArgs (dispatch
        [("deploy", ⟨idHandler, some "abc", ["GET"], [("env", "prod")]⟩)]
        ⟨"GET", [("command", "/deploy"), ("token", "abc"), ("text", "hi")], []⟩) =
      some [("env", "prod"), ("command", "/deploy"), ("token", "abc"),
            ("text", "hi")] := by
  have h := dispatch_success_invokes_handler
    [("deploy", ⟨idHandler, some "abc", ["GET"], [("env", "prod")]⟩)]
    ⟨"GET", [("command", "/deploy"), ("token", "abc"), ("text", "hi")], []⟩
    "deploy" ⟨idHandler, some "abc", ["GET"], [("env", "prod")]⟩
    rfl rfl rfl rfl (by decide)
  rw [h.1]
  rfl

/-! ### Claim C9 -/

/-- Claim C9: a present-but-empty `command` field falls back to the
`trigger_word` field, exactly as an absent `command` key would: the fallback
`data.get('command') or data.get('trigger_word')` is keyed on falsiness of
the value, not on absence of the key. -/
theorem empty_command_falls_back_to_trigger_word
    (data : List (String × String)) (t : String)
    (hc : assocGet data "command" = some "")
    (ht : assocGet data "trigger_word" = some t) :
    extractCommand data = some (pyLstripSlash (pyStrip t)) := by
  simp [extractCommand, pyOr, pyTruthy, hc, ht]

/-- Witness: empty `command` plus `trigger_word=/status` extracts `status`. -/
theorem empty_command_falls_back_to_trigger_word_witness :
    extractCommand [("command", ""), ("trigger_word", "/status")] =
      some "status" := by
  have h := empty_command_falls_back_to_trigger_word
    [("command", ""), ("trigger_word", "/status")] "/status" rfl rfl
  exact h.trans (by decide)

/-! ### Claim C10 -/

/-- Claim C10: when the parameter source has neither a `command` nor a
`trigger_word` key, the extracted command is the `None` sentinel (the
string-trimming step is skipped), it matches no registered string key, and
`dispatch` returns the ephemeral envelope with text
`"Command None is not found"` and empty attachments. -/
theorem dispatch_missing_fields_not_found {R : Type}
    (cmds : List (String × Registration R)) (req : Request)
    (hc : assocGet (requestData req) "command" = none)
    (ht : assocGet (requestData req) "trigger_word" = none) :
    dispatch cmds req =
      some (DispatchOut.resp ⟨"ephemeral", "Command None is not found", []⟩,
            cmds) := by
  have hcmd : extractCommand (requestData req) = none := by
    simp [extractCommand, pyOr, pyTruthy, hc, ht]
  have hval : validate cmds none (assocGet (requestData req) "token")
      req.method = some ⟨"Command None is not found"⟩ := rfl
  simp [dispatch, hcmd, hval, response]

/-- Witness: a request carrying only `text=hello` against a one-command
registry is answered with the `Command None is not found` envelope. -/
theorem dispatch_missing_fields_not_found_witness :
    dispatch [("c", (⟨fun _ => (), none, ["GET"], []⟩ : Registration Unit))]
        ⟨"GET", [("text", "hello")], []⟩ =
      some (DispatchOut.resp ⟨"ephemeral", "Command None is not found", []⟩,
            [("c", (⟨fun _ => (), none, ["GET"], []⟩ : Registration Unit))]) :=
  dispatch_missing_fields_not_found
    [("c", (⟨fun _ => (), none, ["GET"], []⟩ : Registration Unit))]
    ⟨"GET", [("text", "hello")], []⟩ rfl rfl

/-! ### Claim C1 -/

/-- Claim C1 is violated by the code: `kwargs.update(data.to_dict())` mutates
the registered kwargs dict in place, so parameters of one request leak into
the registration record and into later invocations of the same command.
With `c` registered with empty extra kwargs, dispatching a request carrying
`x=1` and then one without `x` hands the second handler invocation `x=1`
(first conjunct), whereas merging the registration-time kwargs into the
second request's data yields no `x` (second conjunct); dispatching the second
request against the pristine registry indeed shows no `x` (third conjunct),
and after the first dispatch the stored kwargs have changed from the
registered `[]` (fourth conjunct). -/
theorem dispatch_mutates_registered_kwargs :
    handledArgs ((dispatch [("c", (⟨idHandler, none, ["GET"], []⟩ :
          Registration (List (String × String))))]
        ⟨"GET", [("command", "c"), ("x", "1")], []⟩).bind
        (fun p => dispatch p.2 ⟨"GET", [("command", "c")], []⟩)) =
      some [("command", "c"), ("x", "1")] ∧
    assocGet (dictUpdate ([] : List (String × String))
        (requestData ⟨"GET", [("command", "c")], []⟩)) "x" = none ∧
    handledArgs (dispatch [("c", (⟨idHandler, none, ["GET"], []⟩ :
          Registration (List (String × String))))]
        ⟨"GET", [("command", "c")], []⟩) =
      some [("command", "c")] ∧
    (dispatch [("c", (⟨idHandler, none, ["GET"], []⟩ :
          Registration (List (String × String))))]
        ⟨"GET", [("command", "c"), ("x", "1")], []⟩).map
        (fun p => kwargsOf p.2 "c") =
      some (some [("command", "c"), ("x", "1")]) := by
  refine ⟨by decide, by decide, by decide, by decide⟩

/-! ### Claim C8 -/

/-- Claim C8: each call of the envelope builder with no `attachments`
argument allocates a fresh empty list: two such calls yield distinct
references, both holding `[]`, and mutating the list behind either
envelope's reference leaves the other's contents unchanged. -/
theorem response_fresh_attachments (h : AttachHeap) (t₁ t₂ r₁ r₂ : String)
    (v : List String) (e₁ e₂ : EnvelopeRef) (h₁ h₂ : AttachHeap)
    (hc₁ : responseAlloc h t₁ r₁ none = (e₁, h₁))
    (hc₂ : responseAlloc h₁ t₂ r₂ none = (e₂, h₂)) :
    e₁.attachments ≠ e₂.attachments ∧
    heapGet h₂ e₁.attachments = some [] ∧
    heapGet h₂ e₂.attachments = some [] ∧
    heapGet (heapSet h₂ e₁.attachments v) e₂.attachments =
      heapGet h₂ e₂.attachments ∧
    heapGet (heapSet h₂ e₂.attachments v) e₁.attachments =
      heapGet h₂ e₁.attachments := by
  simp only [responseAlloc, allocList, Prod.mk.injEq] at hc₁ hc₂
  obtain ⟨he₁, hh₁⟩ := hc₁
  obtain ⟨he₂, hh₂⟩ := hc₂
  subst hh₁
  subst hh₂
  rw [← he₁, ← he₂]
  have hlen : ((⟨h.cells ++ [[]]⟩ : AttachHeap).cells.length) =
      h.cells.length + 1 := by simp
  have hne : h.cells.length ≠ h.cells.length + 1 := by omega
  refine ⟨by simp [hne], ?_, ?_, ?_, ?_⟩
  · show ((h.cells ++ [[]]) ++ [[]]).get? h.cells.length = some []
    rw [List.append_assoc]
    exact get?_append_cons h.cells [] ([] :: [])
  · show ((h.cells ++ [[]]) ++ [[]]).get?
        ((⟨h.cells ++ [[]]⟩ : AttachHeap).cells.length) = some []
    rw [show ((⟨h.cells ++ [[]]⟩ : AttachHeap).cells.length) =
        (h.cells ++ [[]]).length from rfl]
    exact get?_append_cons (h.cells ++ [[]]) [] []
  · exact List.get?_set_ne v _ (by simp [hne])
  · exact List.get?_set_ne v _ (by simp)

/-- Witness: two allocations from the empty heap produce references 0 and 1,
each holding the empty list, and mutation through one leaves the other. -/
theorem response_fresh_attachments_witness :
    (0 : Nat) ≠ 1 ∧
    heapGet ⟨[[], []]⟩ 0 = some [] ∧
    heapGet ⟨[[], []]⟩ 1 = some [] ∧
    heapGet (heapSet ⟨[[], []]⟩ 0 ["a"]) 1 = heapGet ⟨[[], []]⟩ 1 ∧
    heapGet (heapSet ⟨[[], []]⟩ 1 ["a"]) 0 = heapGet ⟨[[], []]⟩ 0 :=
  response_fresh_attachments ⟨[]⟩ "x" "y" "ephemeral" "ephemeral" ["a"]
    ⟨"ephemeral", "x", 0⟩ ⟨"ephemeral", "y", 1⟩ ⟨[[]]⟩ ⟨[[], []]⟩ rfl rfl

end FlaskSlack
